import Mathlib

/-!
# Verification of the `aes-scripts` repository

Shallow embedding of the two Python scripts of the repository and proofs of
the specification claims about them.

* `die.py` — an interactive Docker image launcher (argument parsing, image
  listing, fuzzy selection, command composition, print-or-exec).
* `spring-boot-dependencies.py` — a Spring Boot/Cloud transitive dependency
  lister (HTTP queries to Maven Central, a Maven `dependency:tree` run,
  text parsing of the tree output, temporary-directory lifecycle).

Python strings are modelled as `String` / `List Char`; the Python string
operations used by the scripts (`strip`, `split`, the `in` substring test)
are re-implemented below on `List Char` so that every definition is
executable and kernel-reducible.  External collaborators (the Docker CLI,
`iterfzf`, Maven, HTTP endpoints, the filesystem) are modelled as oracle
fields of an environment record, and each script's `main` is a pure
function from the environment and the parsed arguments to a trace record
(printed lines, external calls made, directories created/removed, and the
final outcome).
-/

/-! ## Python string primitives on `List Char` -/

/-- Whitespace characters removed by Python's `str.strip()` (ASCII part). -/
def pyIsSpace (c : Char) : Bool :=
  c = ' ' || c = '\t' || c = '\n' || c = '\r' || c = '\x0b' || c = '\x0c'

/-- Python `str.strip()`: drop whitespace from both ends. -/
def trimList (xs : List Char) : List Char :=
  ((xs.dropWhile pyIsSpace).reverse.dropWhile pyIsSpace).reverse

/-- Auxiliary for `pySplit`: returns the first separator-free field and the
remaining fields. -/
def splitCharAux (c : Char) : List Char → List Char × List (List Char)
  | [] => ([], [])
  | x :: xs =>
    let p := splitCharAux c xs
    if x = c then ([], p.1 :: p.2) else (x :: p.1, p.2)

/-- Python `str.split(sep)` for a one-character separator `c`:
`pySplit c "" = [""]`, every occurrence of `c` starts a new field. -/
def pySplit (c : Char) (xs : List Char) : List (List Char) :=
  (splitCharAux c xs).1 :: (splitCharAux c xs).2

/-- Does `xs` start with `pat`? -/
def beginsWith : List Char → List Char → Bool
  | [], _ => true
  | _ :: _, [] => false
  | p :: ps, x :: xs => p = x && beginsWith ps xs

/-- Python's substring test `pat in xs`. -/
def containsSeq (pat : List Char) : List Char → Bool
  | [] => beginsWith pat []
  | x :: xs => beginsWith pat (x :: xs) || containsSeq pat xs

/-- Lexicographic (code-point) order on character lists, as Python compares
strings. -/
def lexLe : List Char → List Char → Bool
  | [], _ => true
  | _ :: _, [] => false
  | a :: as, b :: bs => decide (a.val < b.val) || (a == b && lexLe as bs)

/-- Python string comparison `a <= b` (code-point lexicographic). -/
def pyStrLe (a b : String) : Bool := lexLe a.data b.data

/-- Python `sorted(set(l))`: the distinct elements of `l` in ascending
order. -/
def pySortedSet (l : List String) : List String :=
  List.insertionSort (fun a b => pyStrLe a b = true) l.dedup

/-! ## `spring-boot-dependencies.py`: `extract_dependencies` -/

/-- The coordinate string `f"{group_id}:{artifact_id}:{version}"` built from
the colon-separated fields of a line (fields 0, 1 and 3, zero-based). -/
def mkCoord (parts : List (List Char)) : String :=
  String.mk (parts.getD 0 []) ++ ":" ++ String.mk (parts.getD 1 []) ++ ":" ++
    String.mk (parts.getD 3 [])

/-- One iteration of the `extract_dependencies` loop: the coordinate the line
contributes, if any.  Mirrors the source: skip lines containing `"---"`,
require `':' in line`, strip the line, split on `':'`, keep it when there are
at least 5 fields. -/
def lineCoord (line : List Char) : Option String :=
  if containsSeq ("---".toList) line = true then none
  else if containsSeq (":".toList) line = true then
    let parts := pySplit ':' (trimList line)
    if 5 ≤ parts.length then some (mkCoord parts) else none
  else none

/-- All coordinates contributed by the lines of the Maven output, in line
order, duplicates kept.  Splitting at `'\n'` models `str.splitlines()` for
this output (a possible trailing empty line contributes nothing). -/
def collectDeps (mvnOutput : String) : List String :=
  (pySplit '\n' mvnOutput.toList).filterMap lineCoord

/-- `extract_dependencies` from `spring-boot-dependencies.py`: the collected
coordinates, deduplicated (the Python `set`) and sorted (`sorted`). -/
def extract_dependencies (mvnOutput : String) : List String :=
  pySortedSet (collectDeps mvnOutput)

/-- The extraction as the claim words it: exactly the coordinates of the
lines with at least 5 colon-separated fields, deduplicated and sorted —
with no other line filter. -/
def claimLineCoord (line : List Char) : Option String :=
  let parts := pySplit ':' (trimList line)
  if 5 ≤ parts.length then some (mkCoord parts) else none

/-- The claimed extraction function (spec wording of C1). -/
def claimExtract (mvnOutput : String) : List String :=
  pySortedSet ((pySplit '\n' mvnOutput.toList).filterMap claimLineCoord)

/-- The claim amended by the one filter the source adds: lines containing
`"---"` are skipped. -/
def claimLineCoordAmended (line : List Char) : Option String :=
  if containsSeq ("---".toList) line = true then none else claimLineCoord line

/-- The amended claimed extraction function (C1 amended). -/
def claimExtractAmended (mvnOutput : String) : List String :=
  pySortedSet ((pySplit '\n' mvnOutput.toList).filterMap claimLineCoordAmended)

/-! ### Field-count facts used for C1 -/

theorem splitCharAux_snd_length (c : Char) (xs : List Char) :
    (splitCharAux c xs).2.length = xs.count c := by
  induction xs with
  | nil => simp [splitCharAux]
  | cons x xs ih =>
    by_cases h : x = c
    · simp [splitCharAux, h, List.count_cons, ih]
    · simp [splitCharAux, h, List.count_cons, ih, Ne.symm h]

theorem pySplit_length (c : Char) (xs : List Char) :
    (pySplit c xs).length = xs.count c + 1 := by
  simp [pySplit, splitCharAux_snd_length]

theorem mem_of_mem_trimList {c : Char} {xs : List Char} (h : c ∈ trimList xs) :
    c ∈ xs := by
  unfold trimList at h
  rw [List.mem_reverse] at h
  have h2 := (List.dropWhile_sublist pyIsSpace).mem h
  rw [List.mem_reverse] at h2
  exact (List.dropWhile_sublist pyIsSpace).mem h2

theorem containsSeq_single {c : Char} {xs : List Char} (h : c ∈ xs) :
    containsSeq [c] xs = true := by
  induction xs with
  | nil => cases h
  | cons x xs ih =>
    rcases List.mem_cons.mp h with rfl | h'
    · simp [containsSeq, beginsWith]
    · simp [containsSeq, ih h']

/-- A line whose stripped form has at least two colon-separated fields
contains a colon, so the source's `':' in line` test cannot reject it. -/
theorem containsSeq_colon_of_fields {line : List Char}
    (h : 5 ≤ (pySplit ':' (trimList line)).length) :
    containsSeq [':'] line = true := by
  have hcount : 0 < (trimList line).count ':' := by
    have := pySplit_length ':' (trimList line)
    omega
  have hmem : ':' ∈ trimList line := List.count_pos_iff.mp hcount
  exact containsSeq_single (mem_of_mem_trimList hmem)

theorem lineCoord_eq_amended (line : List Char) :
    lineCoord line = claimLineCoordAmended line := by
  unfold lineCoord claimLineCoordAmended claimLineCoord
  by_cases h3 : containsSeq ['-', '-', '-'] line = true
  · simp [h3]
  · by_cases h5 : 5 ≤ (pySplit ':' (trimList line)).length
    · simp [h3, h5, containsSeq_colon_of_fields h5]
    · simp [h3, h5]

/-! ## `die.py`: the Docker image launcher

`main` parses the flags `--bash`/`--sh` (a mutually exclusive group),
`-m`/`--mount` and `-mc`/`--mount-current` (a mutually exclusive group),
`-i`/`--image NAME` and `-v`/`--verbose`, then acquires an image (directly
from `-i`, or by listing the Docker images and asking `iterfzf`), composes a
`docker run` command, and either prints it (verbose) or `execvp`s it. -/

/-- The parsed argparse namespace of `die.py`. -/
structure DieArgs where
  bash : Bool := false
  sh : Bool := false
  mount : Bool := false
  mountCurrent : Bool := false
  image : Option String := none
  verbose : Bool := false
deriving DecidableEq

/-- Classification of one command-line token of `die.py` (canonical option
spellings, as registered with argparse). -/
inductive DieTok where
  | bash | sh | mount | mountCur | verbose | image | unknown
deriving DecidableEq

/-- Which option a token denotes. -/
def classify (t : String) : DieTok :=
  if t = "--bash" then .bash
  else if t = "--sh" then .sh
  else if t = "-m" ∨ t = "--mount" then .mount
  else if t = "-mc" ∨ t = "--mount-current" then .mountCur
  else if t = "-v" ∨ t = "--verbose" then .verbose
  else if t = "-i" ∨ t = "--image" then .image
  else .unknown

/-- Does the token look like an option (argparse refuses such a token as the
value of `-i`)? -/
def headIsDash (v : String) : Bool :=
  match v.data with
  | [] => false
  | c :: _ => decide (c = '-')

/-- The argparse front end of `die.py`: either the parsed namespace or the
exit code of `parser.error` (argparse exits with code 2 on a usage error,
in particular when both options of a mutually exclusive group are given,
when `-i` lacks a value, and on an unrecognized token). -/
def parseDie : List String → DieArgs → Except Nat DieArgs
  | [], a => .ok a
  | t :: ts, a =>
    match classify t with
    | .bash => if a.sh then .error 2 else parseDie ts { a with bash := true }
    | .sh => if a.bash then .error 2 else parseDie ts { a with sh := true }
    | .mount =>
      if a.mountCurrent then .error 2 else parseDie ts { a with mount := true }
    | .mountCur =>
      if a.mount then .error 2 else parseDie ts { a with mountCurrent := true }
    | .verbose => parseDie ts { a with verbose := true }
    | .image =>
      match ts with
      | [] => .error 2
      | v :: ts2 =>
        if headIsDash v then .error 2
        else parseDie ts2 { a with image := some v }
    | .unknown => .error 2

/-- External collaborators of `die.py`. -/
structure DieEnv where
  /-- Raw stdout of `docker image ls --filter dangling=false --format ...`. -/
  dockerOutput : String
  /-- What `iterfzf` returns (`none` models a cancelled selection). -/
  fzfResult : Option String
  /-- `os.getcwd()`. -/
  cwd : String
  /-- `os.path.expanduser("~")`. -/
  home : String
deriving DecidableEq

/-- How a run of `die.py` ends. -/
inductive DieOutcome where
  /-- `sys.exit code` (also used for the argparse usage-error exit). -/
  | exited (code : Nat)
  /-- `os.execvp cmd` — the process image is replaced, `main` never returns. -/
  | execed (cmd : List String)
  /-- `main` returns normally (the verbose path). -/
  | returned
deriving DecidableEq

/-- Observable trace of one run of `die.py`. -/
structure DieTrace where
  /-- Was `docker image ls` invoked? -/
  dockerLsCalled : Bool
  /-- Was the interactive fuzzy selection invoked? -/
  fzfCalled : Bool
  /-- Lines printed, in order. -/
  printed : List String
  /-- Directories created with `os.makedirs`. -/
  madeDirs : List String
  /-- The image the run command was composed with, if composition was
  reached. -/
  usedImage : Option String
  outcome : DieOutcome
deriving DecidableEq

/-- The trace of a run killed by an argparse usage error: nothing external
was touched. -/
def dieErrTrace (code : Nat) : DieTrace :=
  { dockerLsCalled := false, fzfCalled := false, printed := [],
    madeDirs := [], usedImage := none, outcome := .exited code }

/-- `get_docker_images`: `result.stdout.strip().split('\n')`. -/
def get_docker_images (stdout : String) : List String :=
  (pySplit '\n' (trimList stdout.toList)).map (fun l => String.mk l)

/-- `fzf_select`: `result if result is not None else ""`. -/
def fzf_select (result : Option String) : String := result.getD ""

/-- Python truthiness of an optional string (`None` and `""` are falsy). -/
def pyTruthyStr : Option String → Bool
  | none => false
  | some s => !(s == "")

/-- The entrypoint choice:
`"bash" if args.bash or (not args.sh and not args.bash) else "sh"`. -/
def dieEntrypoint (args : DieArgs) : String :=
  if args.bash || (!args.sh && !args.bash) then "bash" else "sh"

/-- The composed `docker run` argument vector. -/
def composeCmd (env : DieEnv) (args : DieArgs) (image : String) : List String :=
  ["docker", "run", "--rm", "-it", "--entrypoint", dieEntrypoint args] ++
    (if args.mountCurrent then ["-v", env.cwd ++ ":/mnt/docker-mnt"]
     else if args.mount then
       ["-v", env.home ++ "/docker-mnt/" ++ image ++ ":/mnt/docker-mnt"]
     else []) ++ [image]

/-- Python `cmd[-2] = x` on a list of length at least 2. -/
def setSecondLast (l : List String) (x : String) : List String :=
  l.take (l.length - 2) ++ x :: l.drop (l.length - 1)

/-- The command line as printed in verbose mode: with `-mc` the mount
argument is replaced by the shell form `$(pwd):/mnt/docker-mnt`. -/
def shownCmd (env : DieEnv) (args : DieArgs) (image : String) : List String :=
  if args.mountCurrent then
    setSecondLast (composeCmd env args image) "$(pwd):/mnt/docker-mnt"
  else composeCmd env args image

/-- The host directory `os.path.join(user_home, "docker-mnt", image)`. -/
def mountPath (env : DieEnv) (image : String) : String :=
  env.home ++ "/docker-mnt/" ++ image

/-- The directories `main` creates while composing the command: only the
`-m` branch calls `os.makedirs` (the `-mc` branch is checked first). -/
def dieMkDirs (env : DieEnv) (args : DieArgs) (image : String) : List String :=
  if args.mountCurrent then [] else if args.mount then [mountPath env image] else []

/-- The tail of `main` once an image is fixed: compose the command, create
the `-m` mount directory if needed, then print (verbose) or exec. -/
def dieFinish (env : DieEnv) (args : DieArgs) (image : String)
    (lsCalled fzfCalled : Bool) : DieTrace :=
  let dirs : List String := dieMkDirs env args image
  if args.verbose then
    { dockerLsCalled := lsCalled, fzfCalled := fzfCalled,
      printed := [" ".intercalate (shownCmd env args image)],
      madeDirs := dirs, usedImage := some image, outcome := .returned }
  else
    { dockerLsCalled := lsCalled, fzfCalled := fzfCalled, printed := [],
      madeDirs := dirs, usedImage := some image,
      outcome := .execed (composeCmd env args image) }

/-- The body of `main` after argument parsing. -/
def dieRun (env : DieEnv) (args : DieArgs) : DieTrace :=
  if pyTruthyStr args.image then
    dieFinish env args (args.image.getD "") false false
  else
    let images := get_docker_images env.dockerOutput
    if images = [] ∨ images = [""] then
      { dockerLsCalled := true, fzfCalled := false,
        printed := ["No Docker images found."], madeDirs := [],
        usedImage := none, outcome := .exited 1 }
    else
      let image := fzf_select env.fzfResult
      if image = "" then
        { dockerLsCalled := true, fzfCalled := true,
          printed := ["No image selected."], madeDirs := [],
          usedImage := none, outcome := .exited 1 }
      else dieFinish env args image true true

/-- `main` of `die.py`: parse, then run. -/
def dieMain (env : DieEnv) (argv : List String) : DieTrace :=
  match parseDie argv {} with
  | .error c => dieErrTrace c
  | .ok args => dieRun env args

/-! ### Unfolding lemmas for `parseDie` -/

theorem parseDie_nil (a : DieArgs) : parseDie [] a = .ok a := rfl

theorem parseDie_cons_bash {t : String} (ts : List String) (a : DieArgs)
    (h : classify t = DieTok.bash) :
    parseDie (t :: ts) a =
      if a.sh then .error 2 else parseDie ts { a with bash := true } := by
  cases ts
  · simp only [parseDie, h]
  · simp only [parseDie, h]

theorem parseDie_cons_sh {t : String} (ts : List String) (a : DieArgs)
    (h : classify t = DieTok.sh) :
    parseDie (t :: ts) a =
      if a.bash then .error 2 else parseDie ts { a with sh := true } := by
  cases ts
  · simp only [parseDie, h]
  · simp only [parseDie, h]

theorem parseDie_cons_mount {t : String} (ts : List String) (a : DieArgs)
    (h : classify t = DieTok.mount) :
    parseDie (t :: ts) a =
      if a.mountCurrent then .error 2 else parseDie ts { a with mount := true } := by
  cases ts
  · simp only [parseDie, h]
  · simp only [parseDie, h]

theorem parseDie_cons_mountCur {t : String} (ts : List String) (a : DieArgs)
    (h : classify t = DieTok.mountCur) :
    parseDie (t :: ts) a =
      if a.mount then .error 2 else parseDie ts { a with mountCurrent := true } := by
  cases ts
  · simp only [parseDie, h]
  · simp only [parseDie, h]

theorem parseDie_cons_verbose {t : String} (ts : List String) (a : DieArgs)
    (h : classify t = DieTok.verbose) :
    parseDie (t :: ts) a = parseDie ts { a with verbose := true } := by
  cases ts
  · simp only [parseDie, h]
  · simp only [parseDie, h]

theorem parseDie_cons_image_nil {t : String} (a : DieArgs)
    (h : classify t = DieTok.image) : parseDie [t] a = .error 2 := by
  simp only [parseDie, h]

theorem parseDie_cons_image_cons {t v : String} (ts2 : List String) (a : DieArgs)
    (h : classify t = DieTok.image) :
    parseDie (t :: v :: ts2) a =
      if headIsDash v then .error 2
      else parseDie ts2 { a with image := some v } := by
  simp only [parseDie, h]

theorem parseDie_cons_unknown {t : String} (ts : List String) (a : DieArgs)
    (h : classify t = DieTok.unknown) : parseDie (t :: ts) a = .error 2 := by
  cases ts
  · simp only [parseDie, h]
  · simp only [parseDie, h]

/-! ### Mutual exclusion of the mount flags (C4 infrastructure) -/

theorem classify_mount_of_tok {t : String} (h : t = "-m" ∨ t = "--mount") :
    classify t = DieTok.mount := by
  rcases h with rfl | rfl
  · decide
  · decide

theorem classify_mountCur_of_tok {t : String}
    (h : t = "-mc" ∨ t = "--mount-current") :
    classify t = DieTok.mountCur := by
  rcases h with rfl | rfl
  · decide
  · decide

theorem classify_mount_dash {v : String} (h : classify v = DieTok.mount) :
    headIsDash v = true := by
  unfold classify at h
  split_ifs at h with h1 h2 h3 h4 h5 h6
  all_goals simp_all
  rcases h3 with rfl | rfl
  · decide
  · decide

theorem classify_mountCur_dash {v : String} (h : classify v = DieTok.mountCur) :
    headIsDash v = true := by
  unfold classify at h
  split_ifs at h with h1 h2 h3 h4 h5 h6
  all_goals simp_all
  rcases h4 with rfl | rfl
  · decide
  · decide

theorem mem_tail_of_classify_ne {u t : String} {ts : List String}
    (hu : u ∈ t :: ts) (hne : classify u ≠ classify t) : u ∈ ts := by
  rcases List.mem_cons.mp hu with rfl | h
  · exact absurd rfl hne
  · exact h

/-- Once `args.mount` is set, a later `-mc`/`--mount-current` token makes
argparse fail with exit code 2. -/
theorem parseDie_mount_pending :
    ∀ (ts : List String) (a : DieArgs), a.mount = true →
      (∃ u ∈ ts, classify u = DieTok.mountCur) → parseDie ts a = .error 2
  | [], _, _, h => by rcases h with ⟨u, hu, _⟩; cases hu
  | t :: ts, a, hm, h => by
    rcases h with ⟨u, hu, huc⟩
    cases hct : classify t with
    | bash =>
      have hu' : u ∈ ts := mem_tail_of_classify_ne hu (by rw [hct, huc]; intro hx; cases hx)
      rw [parseDie_cons_bash ts a hct]
      by_cases hsh : a.sh
      · simp [hsh]
      · simp only [hsh, if_false]
        exact parseDie_mount_pending ts _ hm ⟨u, hu', huc⟩
    | sh =>
      have hu' : u ∈ ts := mem_tail_of_classify_ne hu (by rw [hct, huc]; intro hx; cases hx)
      rw [parseDie_cons_sh ts a hct]
      by_cases hb : a.bash
      · simp [hb]
      · simp only [hb, if_false]
        exact parseDie_mount_pending ts _ hm ⟨u, hu', huc⟩
    | mount =>
      have hu' : u ∈ ts := mem_tail_of_classify_ne hu (by rw [hct, huc]; intro hx; cases hx)
      rw [parseDie_cons_mount ts a hct]
      by_cases hmc : a.mountCurrent
      · simp [hmc]
      · simp only [hmc, if_false]
        exact parseDie_mount_pending ts _ rfl ⟨u, hu', huc⟩
    | mountCur => rw [parseDie_cons_mountCur ts a hct]; simp [hm]
    | verbose =>
      have hu' : u ∈ ts := mem_tail_of_classify_ne hu (by rw [hct, huc]; intro hx; cases hx)
      rw [parseDie_cons_verbose ts a hct]
      exact parseDie_mount_pending ts _ hm ⟨u, hu', huc⟩
    | image =>
      have hu' : u ∈ ts := mem_tail_of_classify_ne hu (by rw [hct, huc]; intro hx; cases hx)
      match ts, hu' with
      | v :: ts2, hu' =>
        rw [parseDie_cons_image_cons ts2 a hct]
        by_cases hd : headIsDash v
        · simp [hd]
        · simp only [hd, if_false]
          have hu2 : u ∈ ts2 := by
            rcases List.mem_cons.mp hu' with rfl | h2
            · exact absurd (classify_mountCur_dash huc) (by simp [hd])
            · exact h2
          exact parseDie_mount_pending ts2 _ hm ⟨u, hu2, huc⟩
    | unknown => exact parseDie_cons_unknown ts a hct

/-- Once `args.mount_current` is set, a later `-m`/`--mount` token makes
argparse fail with exit code 2. -/
theorem parseDie_mountCur_pending :
    ∀ (ts : List String) (a : DieArgs), a.mountCurrent = true →
      (∃ u ∈ ts, classify u = DieTok.mount) → parseDie ts a = .error 2
  | [], _, _, h => by rcases h with ⟨u, hu, _⟩; cases hu
  | t :: ts, a, hm, h => by
    rcases h with ⟨u, hu, huc⟩
    cases hct : classify t with
    | bash =>
      have hu' : u ∈ ts := mem_tail_of_classify_ne hu (by rw [hct, huc]; intro hx; cases hx)
      rw [parseDie_cons_bash ts a hct]
      by_cases hsh : a.sh
      · simp [hsh]
      · simp only [hsh, if_false]
        exact parseDie_mountCur_pending ts _ hm ⟨u, hu', huc⟩
    | sh =>
      have hu' : u ∈ ts := mem_tail_of_classify_ne hu (by rw [hct, huc]; intro hx; cases hx)
      rw [parseDie_cons_sh ts a hct]
      by_cases hb : a.bash
      · simp [hb]
      · simp only [hb, if_false]
        exact parseDie_mountCur_pending ts _ hm ⟨u, hu', huc⟩
    | mount => rw [parseDie_cons_mount ts a hct]; simp [hm]
    | mountCur =>
      have hu' : u ∈ ts := mem_tail_of_classify_ne hu (by rw [hct, huc]; intro hx; cases hx)
      rw [parseDie_cons_mountCur ts a hct]
      by_cases hmo : a.mount
      · simp [hmo]
      · simp only [hmo, if_false]
        exact parseDie_mountCur_pending ts _ rfl ⟨u, hu', huc⟩
    | verbose =>
      have hu' : u ∈ ts := mem_tail_of_classify_ne hu (by rw [hct, huc]; intro hx; cases hx)
      rw [parseDie_cons_verbose ts a hct]
      exact parseDie_mountCur_pending ts _ hm ⟨u, hu', huc⟩
    | image =>
      have hu' : u ∈ ts := mem_tail_of_classify_ne hu (by rw [hct, huc]; intro hx; cases hx)
      match ts, hu' with
      | v :: ts2, hu' =>
        rw [parseDie_cons_image_cons ts2 a hct]
        by_cases hd : headIsDash v
        · simp [hd]
        · simp only [hd, if_false]
          have hu2 : u ∈ ts2 := by
            rcases List.mem_cons.mp hu' with rfl | h2
            · exact absurd (classify_mount_dash huc) (by simp [hd])
            · exact h2
          exact parseDie_mountCur_pending ts2 _ hm ⟨u, hu2, huc⟩
    | unknown => exact parseDie_cons_unknown ts a hct

/-- A token list containing both a `-m`/`--mount` token and a
`-mc`/`--mount-current` token is always rejected by argparse with exit
code 2, from any starting namespace. -/
theorem parseDie_both_mounts :
    ∀ (ts : List String) (a : DieArgs),
      (∃ u ∈ ts, classify u = DieTok.mount) →
      (∃ w ∈ ts, classify w = DieTok.mountCur) → parseDie ts a = .error 2
  | [], _, h, _ => by rcases h with ⟨u, hu, _⟩; cases hu
  | t :: ts, a, hM, hC => by
    rcases hM with ⟨u, hu, huc⟩
    rcases hC with ⟨w, hw, hwc⟩
    cases hct : classify t with
    | bash =>
      have hu' : u ∈ ts := mem_tail_of_classify_ne hu (by rw [hct, huc]; intro hx; cases hx)
      have hw' : w ∈ ts := mem_tail_of_classify_ne hw (by rw [hct, hwc]; intro hx; cases hx)
      rw [parseDie_cons_bash ts a hct]
      by_cases hsh : a.sh
      · simp [hsh]
      · simp only [hsh, if_false]
        exact parseDie_both_mounts ts _ ⟨u, hu', huc⟩ ⟨w, hw', hwc⟩
    | sh =>
      have hu' : u ∈ ts := mem_tail_of_classify_ne hu (by rw [hct, huc]; intro hx; cases hx)
      have hw' : w ∈ ts := mem_tail_of_classify_ne hw (by rw [hct, hwc]; intro hx; cases hx)
      rw [parseDie_cons_sh ts a hct]
      by_cases hb : a.bash
      · simp [hb]
      · simp only [hb, if_false]
        exact parseDie_both_mounts ts _ ⟨u, hu', huc⟩ ⟨w, hw', hwc⟩
    | mount =>
      have hw' : w ∈ ts := mem_tail_of_classify_ne hw (by rw [hct, hwc]; intro hx; cases hx)
      rw [parseDie_cons_mount ts a hct]
      by_cases hmc : a.mountCurrent
      · simp [hmc]
      · simp only [hmc, if_false]
        exact parseDie_mount_pending ts _ rfl ⟨w, hw', hwc⟩
    | mountCur =>
      have hu' : u ∈ ts := mem_tail_of_classify_ne hu (by rw [hct, huc]; intro hx; cases hx)
      rw [parseDie_cons_mountCur ts a hct]
      by_cases hmo : a.mount
      · simp [hmo]
      · simp only [hmo, if_false]
        exact parseDie_mountCur_pending ts _ rfl ⟨u, hu', huc⟩
    | verbose =>
      have hu' : u ∈ ts := mem_tail_of_classify_ne hu (by rw [hct, huc]; intro hx; cases hx)
      have hw' : w ∈ ts := mem_tail_of_classify_ne hw (by rw [hct, hwc]; intro hx; cases hx)
      rw [parseDie_cons_verbose ts a hct]
      exact parseDie_both_mounts ts _ ⟨u, hu', huc⟩ ⟨w, hw', hwc⟩
    | image =>
      have hu' : u ∈ ts := mem_tail_of_classify_ne hu (by rw [hct, huc]; intro hx; cases hx)
      have hw' : w ∈ ts := mem_tail_of_classify_ne hw (by rw [hct, hwc]; intro hx; cases hx)
      match ts, hu', hw' with
      | v :: ts2, hu', hw' =>
        rw [parseDie_cons_image_cons ts2 a hct]
        by_cases hd : headIsDash v
        · simp [hd]
        · simp only [hd, if_false]
          have hu2 : u ∈ ts2 := by
            rcases List.mem_cons.mp hu' with rfl | h2
            · exact absurd (classify_mount_dash huc) (by simp [hd])
            · exact h2
          have hw2 : w ∈ ts2 := by
            rcases List.mem_cons.mp hw' with rfl | h2
            · exact absurd (classify_mountCur_dash hwc) (by simp [hd])
            · exact h2
          exact parseDie_both_mounts ts2 _ ⟨u, hu2, huc⟩ ⟨w, hw2, hwc⟩
    | unknown => exact parseDie_cons_unknown ts a hct

/-! ### Structural lemmas for `dieRun` -/

theorem dieFinish_verbose {env : DieEnv} {args : DieArgs} (i : String)
    (ls fz : Bool) (hv : args.verbose = true) :
    dieFinish env args i ls fz =
      { dockerLsCalled := ls, fzfCalled := fz,
        printed := [" ".intercalate (shownCmd env args i)],
        madeDirs := dieMkDirs env args i, usedImage := some i,
        outcome := .returned } := by
  simp [dieFinish, hv]

theorem dieFinish_nonverbose {env : DieEnv} {args : DieArgs} (i : String)
    (ls fz : Bool) (hv : args.verbose = false) :
    dieFinish env args i ls fz =
      { dockerLsCalled := ls, fzfCalled := fz, printed := [],
        madeDirs := dieMkDirs env args i, usedImage := some i,
        outcome := .execed (composeCmd env args i) } := by
  simp [dieFinish, hv]

/-- Every run of the launcher body either stops at one of the two
`sys.exit(1)` points or reaches command composition with some image. -/
theorem dieRun_split (env : DieEnv) (args : DieArgs) :
    dieRun env args =
      { dockerLsCalled := true, fzfCalled := false,
        printed := ["No Docker images found."], madeDirs := [],
        usedImage := none, outcome := .exited 1 } ∨
    dieRun env args =
      { dockerLsCalled := true, fzfCalled := true,
        printed := ["No image selected."], madeDirs := [],
        usedImage := none, outcome := .exited 1 } ∨
    (∃ i ls fz, dieRun env args = dieFinish env args i ls fz) := by
  unfold dieRun
  by_cases ht : pyTruthyStr args.image = true
  · rw [if_pos ht]
    exact .inr (.inr ⟨_, _, _, rfl⟩)
  · rw [if_neg ht]
    by_cases hI : get_docker_images env.dockerOutput = [] ∨
        get_docker_images env.dockerOutput = [""]
    · rw [if_pos hI]
      exact .inl rfl
    · rw [if_neg hI]
      by_cases hf : fzf_select env.fzfResult = ""
      · rw [if_pos hf]
        exact .inr (.inl rfl)
      · rw [if_neg hf]
        exact .inr (.inr ⟨_, _, _, rfl⟩)

/-! ## Claim theorems for `die.py` -/

/-- C2: with no explicit image flag and a container runtime that reports an
empty image list (whitespace-only `docker image ls` output), the launcher
prints "No Docker images found." and exits with code 1; no fuzzy selection
happens, no directory is created, and no run command is composed or
executed. -/
theorem C2_no_images_exits_one (env : DieEnv) (args : DieArgs)
    (himg : args.image = none)
    (hout : trimList env.dockerOutput.toList = []) :
    dieRun env args =
      { dockerLsCalled := true, fzfCalled := false,
        printed := ["No Docker images found."], madeDirs := [],
        usedImage := none, outcome := .exited 1 } := by
  have ht : pyTruthyStr args.image = false := by rw [himg]; rfl
  have hI : get_docker_images env.dockerOutput = [""] := by
    unfold get_docker_images
    rw [hout]
    rfl
  unfold dieRun
  rw [if_neg (by simp [ht]), if_pos (Or.inr hI)]

/-- C2 witness: a concrete run with empty docker output and no `-i` flag. -/
theorem C2_witness :
    ({ image := none : DieArgs }).image = none ∧
    trimList ("" : String).toList = [] ∧
    dieRun { dockerOutput := "", fzfResult := none, cwd := "/w", home := "/h" }
        { image := none } =
      { dockerLsCalled := true, fzfCalled := false,
        printed := ["No Docker images found."], madeDirs := [],
        usedImage := none, outcome := .exited 1 } :=
  ⟨rfl, rfl,
    C2_no_images_exits_one
      { dockerOutput := "", fzfResult := none, cwd := "/w", home := "/h" }
      { image := none } rfl rfl⟩

/-- C3 counterexample: the claim "with an explicit image name flag the
interactive selection and the image-list query are never invoked" fails for
the invocation `-i ""`: argparse stores the empty string, Python's
truthiness test `if args.image:` is false, and the launcher queries the
image list and runs the fuzzy selection anyway. -/
theorem C3_counterexample :
    (dieMain
        { dockerOutput := "img:latest\tnow", fzfResult := some "img:latest",
          cwd := "/w", home := "/h" } ["-i", ""]).fzfCalled = true ∧
    (dieMain
        { dockerOutput := "img:latest\tnow", fzfResult := some "img:latest",
          cwd := "/w", home := "/h" } ["-i", ""]).dockerLsCalled = true := by
  constructor
  · decide
  · decide

/-- C3 amended: with an explicit *non-empty* image name, the launcher never
queries the image list, never invokes the fuzzy selection, and uses the
supplied name directly as the image. -/
theorem C3_explicit_image_skips_selection (env : DieEnv) (args : DieArgs)
    (s : String) (himg : args.image = some s) (hs : s ≠ "") :
    (dieRun env args).dockerLsCalled = false ∧
    (dieRun env args).fzfCalled = false ∧
    (dieRun env args).usedImage = some s := by
  have ht : pyTruthyStr args.image = true := by
    rw [himg]
    simp [pyTruthyStr, hs]
  unfold dieRun
  rw [if_pos ht, himg]
  by_cases hv : args.verbose = true
  · rw [dieFinish_verbose _ _ _ hv]
    exact ⟨rfl, rfl, rfl⟩
  · rw [dieFinish_nonverbose _ _ _ (by simpa using hv)]
    exact ⟨rfl, rfl, rfl⟩

/-- C3 witness: a concrete run with `-i img:1` touches neither docker
image listing nor fzf and uses "img:1". -/
theorem C3_witness :
    ({ image := some "img:1" : DieArgs }).image = some "img:1" ∧
    ("img:1" : String) ≠ "" ∧
    ((dieRun { dockerOutput := "a:1\tx", fzfResult := some "a:1", cwd := "/w", home := "/h" } { image := some "img:1" }).dockerLsCalled = false ∧
     (dieRun { dockerOutput := "a:1\tx", fzfResult := some "a:1", cwd := "/w", home := "/h" } { image := some "img:1" }).fzfCalled = false ∧
     (dieRun { dockerOutput := "a:1\tx", fzfResult := some "a:1", cwd := "/w", home := "/h" } { image := some "img:1" }).usedImage = some "img:1") :=
  ⟨rfl, by decide,
    C3_explicit_image_skips_selection
      { dockerOutput := "a:1\tx", fzfResult := some "a:1", cwd := "/w", home := "/h" }
      { image := some "img:1" } "img:1" rfl (by decide)⟩

/-- C4: an invocation supplying both a `-m`/`--mount` token and a
`-mc`/`--mount-current` token is rejected by argument parsing with exit
code 2 (non-zero): no image listing, no fuzzy selection, no directory
creation, no composed or executed run command. -/
theorem C4_mount_flags_mutually_exclusive (env : DieEnv) (argv : List String)
    (hM : "-m" ∈ argv ∨ "--mount" ∈ argv)
    (hC : "-mc" ∈ argv ∨ "--mount-current" ∈ argv) :
    dieMain env argv = dieErrTrace 2 := by
  have hM' : ∃ u ∈ argv, classify u = DieTok.mount := by
    rcases hM with h | h
    · exact ⟨"-m", h, by decide⟩
    · exact ⟨"--mount", h, by decide⟩
  have hC' : ∃ w ∈ argv, classify w = DieTok.mountCur := by
    rcases hC with h | h
    · exact ⟨"-mc", h, by decide⟩
    · exact ⟨"--mount-current", h, by decide⟩
  unfold dieMain
  rw [parseDie_both_mounts argv {} hM' hC']

/-- C4 witness: `die.py -m -mc` exits 2 before any external call. -/
theorem C4_witness :
    (("-m" : String) ∈ ["-m", "-mc"] ∨ ("--mount" : String) ∈ ["-m", "-mc"]) ∧
    (("-mc" : String) ∈ ["-m", "-mc"] ∨
      ("--mount-current" : String) ∈ ["-m", "-mc"]) ∧
    dieMain { dockerOutput := "a:1\tx", fzfResult := some "a:1", cwd := "/w", home := "/h" } ["-m", "-mc"] = dieErrTrace 2 :=
  ⟨Or.inl (by decide), Or.inl (by decide),
    C4_mount_flags_mutually_exclusive
      { dockerOutput := "a:1\tx", fzfResult := some "a:1", cwd := "/w", home := "/h" }
      ["-m", "-mc"] (Or.inl (by decide)) (Or.inl (by decide))⟩

/-- C5: in verbose mode the launcher never executes the container runtime's
run command: whenever composition is reached it only prints the composed
command line and returns; in non-verbose mode, reaching composition always
ends in `os.execvp` of the composed command (no print, no return). -/
theorem C5_verbose_never_execs (env : DieEnv) (args : DieArgs) (img : String) :
    (args.verbose = true →
      ∀ c, (dieRun env args).outcome ≠ DieOutcome.execed c) ∧
    (args.verbose = true → (dieRun env args).usedImage = some img →
      (dieRun env args).outcome = DieOutcome.returned ∧
      (dieRun env args).printed = [" ".intercalate (shownCmd env args img)]) ∧
    (args.verbose = false → (dieRun env args).usedImage = some img →
      (dieRun env args).outcome = DieOutcome.execed (composeCmd env args img) ∧
      (dieRun env args).printed = []) := by
  rcases dieRun_split env args with h | h | ⟨i, ls, fz, h⟩
  · rw [h]
    refine ⟨fun _ c hc => ?_, fun _ hu => ?_, fun _ hu => ?_⟩
    · simp at hc
    · simp at hu
    · simp at hu
  · rw [h]
    refine ⟨fun _ c hc => ?_, fun _ hu => ?_, fun _ hu => ?_⟩
    · simp at hc
    · simp at hu
    · simp at hu
  · rw [h]
    by_cases hv : args.verbose = true
    · rw [dieFinish_verbose i ls fz hv]
      refine ⟨fun _ c hc => ?_, fun _ hu => ?_, fun hv' _ => ?_⟩
      · simp at hc
      · have hi : i = img := by simpa using hu
        subst hi
        exact ⟨rfl, rfl⟩
      · rw [hv] at hv'
        cases hv'
    · have hv' : args.verbose = false := by simpa using hv
      rw [dieFinish_nonverbose i ls fz hv']
      refine ⟨fun hvt c hc => ?_, fun hvt _ => ?_, fun _ hu => ?_⟩
      · rw [hv'] at hvt
        cases hvt
      · rw [hv'] at hvt
        cases hvt
      · have hi : i = img := by simpa using hu
        subst hi
        exact ⟨rfl, rfl⟩

/-- C5 witness: a concrete verbose run returns after printing the composed
command instead of executing it. -/
theorem C5_witness :
    ({ image := some "a:1", verbose := true : DieArgs }).verbose = true ∧
    (dieRun { dockerOutput := "a:1\tx", fzfResult := none, cwd := "/w", home := "/h" } { image := some "a:1", verbose := true }).usedImage = some "a:1" ∧
    ((dieRun { dockerOutput := "a:1\tx", fzfResult := none, cwd := "/w", home := "/h" } { image := some "a:1", verbose := true }).outcome = DieOutcome.returned ∧
     (dieRun { dockerOutput := "a:1\tx", fzfResult := none, cwd := "/w", home := "/h" } { image := some "a:1", verbose := true }).printed =
       [" ".intercalate (shownCmd { dockerOutput := "a:1\tx", fzfResult := none, cwd := "/w", home := "/h" } { image := some "a:1", verbose := true } "a:1")]) :=
  ⟨rfl, by decide,
    (C5_verbose_never_execs
      { dockerOutput := "a:1\tx", fzfResult := none, cwd := "/w", home := "/h" }
      { image := some "a:1", verbose := true } "a:1").2.1 rfl (by decide)⟩

/-- C10: with the home-relative mount flag set, the host mount directory
`~/docker-mnt/<image>` is created even in verbose mode — the
`os.makedirs` side effect happens before the verbose check, so a verbose
run that executes no container still modifies the filesystem. -/
theorem C10_mount_dir_created_in_verbose (env : DieEnv) (args : DieArgs)
    (img : String) (hm : args.mount = true) (hmc : args.mountCurrent = false)
    (hv : args.verbose = true)
    (hused : (dieRun env args).usedImage = some img) :
    (dieRun env args).madeDirs = [mountPath env img] ∧
    (dieRun env args).outcome = DieOutcome.returned := by
  rcases dieRun_split env args with h | h | ⟨i, ls, fz, h⟩
  · rw [h] at hused
    cases hused
  · rw [h] at hused
    cases hused
  · rw [h] at hused ⊢
    rw [dieFinish_verbose i ls fz hv] at hused ⊢
    have hi : i = img := by simpa using hused
    subst hi
    refine ⟨?_, rfl⟩
    simp [dieMkDirs, hm, hmc]

/-- C10 witness: a concrete verbose `-m` run creates `/h/docker-mnt/a:1`
and returns without executing anything. -/
theorem C10_witness :
    ({ image := some "a:1", mount := true, verbose := true : DieArgs }).mount = true ∧
    ({ image := some "a:1", mount := true, verbose := true : DieArgs }).mountCurrent = false ∧
    ({ image := some "a:1", mount := true, verbose := true : DieArgs }).verbose = true ∧
    (dieRun { dockerOutput := "a:1\tx", fzfResult := none, cwd := "/w", home := "/h" } { image := some "a:1", mount := true, verbose := true }).usedImage = some "a:1" ∧
    ((dieRun { dockerOutput := "a:1\tx", fzfResult := none, cwd := "/w", home := "/h" } { image := some "a:1", mount := true, verbose := true }).madeDirs =
      [mountPath { dockerOutput := "a:1\tx", fzfResult := none, cwd := "/w", home := "/h" } "a:1"] ∧
     (dieRun { dockerOutput := "a:1\tx", fzfResult := none, cwd := "/w", home := "/h" } { image := some "a:1", mount := true, verbose := true }).outcome = DieOutcome.returned) :=
  ⟨rfl, rfl, rfl, by decide,
    C10_mount_dir_created_in_verbose
      { dockerOutput := "a:1\tx", fzfResult := none, cwd := "/w", home := "/h" }
      { image := some "a:1", mount := true, verbose := true } "a:1"
      rfl rfl rfl (by decide)⟩

/-! ## `spring-boot-dependencies.py`: main pipeline

The HTTP endpoints are modelled as oracles: `Except String α` is the result
of the `try` block body — `.error e` is any raised exception (network
failure, non-2xx status via `raise_for_status`, bad payload), with `e` the
exception text.  Maven is an oracle triple (returncode, stdout, stderr).
The filesystem enters only through the two temporary directories. -/

/-- One document of the Maven Central search response (`docs[0]` is all the
source reads; `.get("latestVersion")` can be absent). -/
structure SolrDoc where
  latestVersion : Option String
deriving DecidableEq

/-- One `<dependency>` element of the fetched POM: the text of its
`groupId`, `artifactId` and `version` children (`none` when the child is
absent). -/
structure PomDep where
  g : Option String
  a : Option String
  v : Option String
deriving DecidableEq

/-- Result of a `subprocess.run(["mvn", "dependency:tree", ...])` call. -/
structure MvnResult where
  returncode : Int
  stdout : String
  stderr : String
deriving DecidableEq

/-- External collaborators of `spring-boot-dependencies.py`. -/
structure SbEnv where
  /-- The search.maven.org query for the latest `commons-compress`:
  the `docs` list of the JSON response, or the raised exception. -/
  latestOracle : Except String (List SolrDoc)
  /-- The repo1.maven.org POM fetch: its dependency elements, or the raised
  exception. -/
  pomOracle : Except String (List PomDep)
  /-- Maven run in the Spring Boot temp project. -/
  mvnBoot : MvnResult
  /-- Maven run in the Spring Cloud temp project. -/
  mvnCloud : MvnResult
  /-- Does `spring-boot-temp-project` exist before the run? -/
  preBoot : Bool
  /-- Does `spring-cloud-temp-project` exist before the run? -/
  preCloud : Bool

/-- The parsed argparse namespace: `--spring-boot` (`-sb`), `--spring-cloud`
(`-sc`) and `--keep` (`-k`) all take a string value (the source registers
`--keep` without a store-true action), so each is `None` or the given
string. -/
structure SbArgs where
  boot : Option String := none
  cloud : Option String := none
  keep : Option String := none
deriving DecidableEq

def TEMP_BOOT_DIR : String := "spring-boot-temp-project"

def TEMP_CLOUD_DIR : String := "spring-cloud-temp-project"

/-- How a run of the dependency lister ends. -/
inductive SbOutcome where
  /-- `sys.exit code`. -/
  | exited (code : Nat)
  /-- One of the two early `return`s after a Maven failure. -/
  | earlyReturn
  /-- `main` ran to its end. -/
  | completed
deriving DecidableEq

/-- Observable trace of one run of the dependency lister. -/
structure SbTrace where
  /-- Lines printed, in order. -/
  printed : List String
  /-- HTTP requests issued (tags for the two endpoints). -/
  httpCalls : List String
  /-- Directories Maven was invoked in. -/
  mvnCalled : List String
  /-- Temporary directories created this run. -/
  createdDirs : List String
  /-- Directories removed by `shutil.rmtree` at cleanup. -/
  removedDirs : List String
  /-- The value of `compress_version` (result of the latest-version query). -/
  latestResult : Option String
  /-- The value of `io_version` (result of the POM query). -/
  ioResult : Option String
  /-- Did `extract_dependencies` + the three version prints run for the
  Boot variant? -/
  bootParsed : Bool
  /-- Did `extract_dependencies` + the version print run for the Cloud
  variant? -/
  cloudParsed : Bool
  /-- Does `spring-boot-temp-project` exist after the run? -/
  bootDirFinal : Bool
  /-- Does `spring-cloud-temp-project` exist after the run? -/
  cloudDirFinal : Bool
  outcome : SbOutcome
deriving DecidableEq

/-- Stands for the argparse help text printed by `parser.print_help()`. -/
def sbHelp : String :=
  "usage: lister les dependances transitives de Spring Boot"

/-- `get_latest_version`: query the package index; any exception is caught
and printed, yielding `None`; an empty `docs` list raises (and is caught
the same way); otherwise `docs[0].get("latestVersion")`.  Returns the
result and the lines printed during the call. -/
def get_latest_version (group_id artifact_id : String)
    (oracle : Except String (List SolrDoc)) : Option String × List String :=
  match oracle with
  | .error e =>
    (none, ["❌ Erreur lors de la récupération de la version : " ++ e])
  | .ok docs =>
    match docs with
    | [] =>
      (none, ["❌ Erreur lors de la récupération de la version : " ++
        "Aucune version trouvée pour " ++ group_id ++ ":" ++ artifact_id])
    | d :: _ => (d.latestVersion, [])

/-- The loop of `get_dependency_version`: first dependency element whose
`groupId`/`artifactId` texts match returns its `version` text (possibly
absent). -/
def findDep (deps : List PomDep) (dg da : String) : Option String :=
  match deps with
  | [] => none
  | d :: ds =>
    if d.g = some dg ∧ d.a = some da then d.v else findDep ds dg da

/-- `get_dependency_version`: fetch and scan the POM; any exception is
caught and printed, yielding `None`.  Returns the result and the lines
printed during the call. -/
def get_dependency_version (dep_group_id dep_artifact_id : String)
    (oracle : Except String (List PomDep)) : Option String × List String :=
  match oracle with
  | .error e => (none, ["Erreur lors de la récupération du POM : " ++ e])
  | .ok deps => (findDep deps dep_group_id dep_artifact_id, [])

/-- `run_maven_dependency_tree`: on a non-zero exit print the captured
stderr (Python `print` with two arguments joins them with a space) and
return `None`; otherwise return the captured stdout.  Returns the result
and the lines printed during the call. -/
def run_maven_dependency_tree (r : MvnResult) : Option String × List String :=
  if r.returncode ≠ 0 then (none, ["Erreur Maven:\n " ++ r.stderr])
  else (some r.stdout, [])

/-- Python `str(x)` of an optional string, as an f-string renders it. -/
def pyShowOpt : Option String → String
  | none => "None"
  | some s => s

/-- `print_dependency_version`: the line printed for the first collected
coordinate containing `filt` as a substring (its third colon field), or the
not-found line. -/
def print_dependency_version (deps : List String) (name filt : String) :
    List String :=
  match deps.find? (fun d => containsSeq filt.toList d.toList) with
  | some d =>
    ["  - Version de " ++ name ++ " : " ++
      String.mk ((pySplit ':' d.toList).getD 2 [])]
  | none =>
    ["  ❌ Aucune version trouvée pour " ++ filt ++ " dans les dépendances."]

/-- The latest-version query `main` makes. -/
def sbLatest (env : SbEnv) : Option String × List String :=
  get_latest_version "org.apache.commons" "commons-compress" env.latestOracle

/-- The commons-io POM query `main` makes. -/
def sbIoDep (env : SbEnv) : Option String × List String :=
  get_dependency_version "commons-io" "commons-io" env.pomOracle

/-- Everything printed from the start of a non-help run up to and including
the Boot Maven call's own output. -/
def sbBootBlock (env : SbEnv) (args : SbArgs) : List String :=
  ["📦 Dépendances depuis maven central :"] ++ (sbLatest env).2 ++
  ["  - Derniere version de commons-compress disponible: " ++
    pyShowOpt (sbLatest env).1] ++ (sbIoDep env).2 ++
  ["  - Version de commons-io: " ++ pyShowOpt (sbIoDep env).1] ++
  ["", "🔧 Génération du projet Spring Boot " ++ args.boot.getD "",
   "🚀 Exécution de Maven pour obtenir les dépendances..."] ++
  (run_maven_dependency_tree env.mvnBoot).2

/-- The three Boot version-report lines. -/
def sbBootPrints (deps : List String) : List String :=
  print_dependency_version deps "Spring framework"
      "org.springframework:spring-context" ++
  print_dependency_version deps "Jackson"
      "com.fasterxml.jackson.core:jackson-core" ++
  print_dependency_version deps "Log4J" "org.apache.logging.log4j:log4j-api"

/-- Everything printed through the end of the Boot variant's report. -/
def sbBootFull (env : SbEnv) (args : SbArgs) (bootOut : String) : List String :=
  sbBootBlock env args ++ ["📦 Dépendances résolues :"] ++
    sbBootPrints (extract_dependencies bootOut)

/-- The Cloud-variant banner lines and the Cloud Maven call's own output. -/
def sbCloudBlock (env : SbEnv) (args : SbArgs) : List String :=
  ["", "🔧 Génération du projet Spring Cloud " ++ args.cloud.getD "",
   "🚀 Exécution de Maven pour obtenir les dépendances..."] ++
  (run_maven_dependency_tree env.mvnCloud).2

/-- Everything printed through the end of the Cloud variant's report. -/
def sbCloudFull (env : SbEnv) (args : SbArgs) (bootOut cloudOut : String) :
    List String :=
  sbBootFull env args bootOut ++ sbCloudBlock env args ++
  ["📦 Dépendances résolues :"] ++
  print_dependency_version (extract_dependencies cloudOut) "Bouncy Castle"
    "org.bouncycastle"

/-- Trace of the help path (`not args.boot`): print help, exit 0, nothing
external touched, filesystem untouched. -/
def sbHelpTrace (env : SbEnv) : SbTrace :=
  { printed := [sbHelp], httpCalls := [], mvnCalled := [], createdDirs := [],
    removedDirs := [], latestResult := none, ioResult := none,
    bootParsed := false, cloudParsed := false, bootDirFinal := env.preBoot,
    cloudDirFinal := env.preCloud, outcome := .exited 0 }

/-- Trace of the early return after a Boot Maven failure: the Boot temp
directory was created and is left behind; no parsing, no cleanup. -/
def sbEarlyBootTrace (env : SbEnv) (args : SbArgs) : SbTrace :=
  { printed := sbBootBlock env args, httpCalls := ["solrsearch", "pom"],
    mvnCalled := [TEMP_BOOT_DIR], createdDirs := [TEMP_BOOT_DIR],
    removedDirs := [], latestResult := (sbLatest env).1,
    ioResult := (sbIoDep env).1, bootParsed := false, cloudParsed := false,
    bootDirFinal := true, cloudDirFinal := env.preCloud,
    outcome := .earlyReturn }

/-- Trace of the early return after a Cloud Maven failure: both temp
directories were created and are left behind; no Cloud parsing, no
cleanup. -/
def sbEarlyCloudTrace (env : SbEnv) (args : SbArgs) (bootOut : String) :
    SbTrace :=
  { printed := sbBootFull env args bootOut ++ sbCloudBlock env args,
    httpCalls := ["solrsearch", "pom"],
    mvnCalled := [TEMP_BOOT_DIR, TEMP_CLOUD_DIR],
    createdDirs := [TEMP_BOOT_DIR, TEMP_CLOUD_DIR], removedDirs := [],
    latestResult := (sbLatest env).1, ioResult := (sbIoDep env).1,
    bootParsed := true, cloudParsed := false, bootDirFinal := true,
    cloudDirFinal := true, outcome := .earlyReturn }

/-- The cleanup epilogue of a completed run: unless `args.keep` is truthy,
print the removal banner and remove whichever temp directories exist (the
Boot one always exists here; the Cloud one if created this run or
pre-existing). -/
def sbCleanup (env : SbEnv) (args : SbArgs) (printedSoFar : List String)
    (cv iov : Option String) (cloudRan : Bool) : SbTrace :=
  if pyTruthyStr args.keep = false then
    { printed := printedSoFar ++
        ["🗑️ Suppression des répertoires temporaires..."],
      httpCalls := ["solrsearch", "pom"],
      mvnCalled := if cloudRan then [TEMP_BOOT_DIR, TEMP_CLOUD_DIR]
        else [TEMP_BOOT_DIR],
      createdDirs := if cloudRan then [TEMP_BOOT_DIR, TEMP_CLOUD_DIR]
        else [TEMP_BOOT_DIR],
      removedDirs := TEMP_BOOT_DIR ::
        (if cloudRan || env.preCloud then [TEMP_CLOUD_DIR] else []),
      latestResult := cv, ioResult := iov, bootParsed := true,
      cloudParsed := cloudRan, bootDirFinal := false, cloudDirFinal := false,
      outcome := .completed }
  else
    { printed := printedSoFar, httpCalls := ["solrsearch", "pom"],
      mvnCalled := if cloudRan then [TEMP_BOOT_DIR, TEMP_CLOUD_DIR]
        else [TEMP_BOOT_DIR],
      createdDirs := if cloudRan then [TEMP_BOOT_DIR, TEMP_CLOUD_DIR]
        else [TEMP_BOOT_DIR],
      removedDirs := [], latestResult := cv, ioResult := iov,
      bootParsed := true, cloudParsed := cloudRan, bootDirFinal := true,
      cloudDirFinal := cloudRan || env.preCloud, outcome := .completed }

/-- `main` of `spring-boot-dependencies.py` over the parsed arguments:
without a truthy `--spring-boot` value print help and exit 0; otherwise run
the two HTTP queries, generate the Boot project, run Maven (early return on
failure), report versions, optionally do the same for the Cloud variant,
then clean up the temp directories unless `--keep` is truthy. -/
def sb_main (env : SbEnv) (args : SbArgs) : SbTrace :=
  if pyTruthyStr args.boot = false then sbHelpTrace env
  else
    match (run_maven_dependency_tree env.mvnBoot).1 with
    | none => sbEarlyBootTrace env args
    | some bootOut =>
      if pyTruthyStr args.cloud = true then
        match (run_maven_dependency_tree env.mvnCloud).1 with
        | none => sbEarlyCloudTrace env args bootOut
        | some cloudOut =>
          sbCleanup env args (sbCloudFull env args bootOut cloudOut)
            (sbLatest env).1 (sbIoDep env).1 true
      else
        sbCleanup env args (sbBootFull env args bootOut)
          (sbLatest env).1 (sbIoDep env).1 false

/-! ### Branch lemmas for `sb_main` -/

theorem sb_main_help (env : SbEnv) (args : SbArgs)
    (h : pyTruthyStr args.boot = false) : sb_main env args = sbHelpTrace env := by
  unfold sb_main
  rw [if_pos h]

theorem sb_main_earlyBoot (env : SbEnv) (args : SbArgs)
    (hb : pyTruthyStr args.boot = true) (hrc : env.mvnBoot.returncode ≠ 0) :
    sb_main env args = sbEarlyBootTrace env args := by
  unfold sb_main
  rw [if_neg (by simp [hb])]
  have h1 : (run_maven_dependency_tree env.mvnBoot).1 = none := by
    simp [run_maven_dependency_tree, hrc]
  rw [h1]

theorem sb_main_noCloud (env : SbEnv) (args : SbArgs)
    (hb : pyTruthyStr args.boot = true) (hrc : env.mvnBoot.returncode = 0)
    (hc : pyTruthyStr args.cloud = false) :
    sb_main env args =
      sbCleanup env args (sbBootFull env args env.mvnBoot.stdout)
        (sbLatest env).1 (sbIoDep env).1 false := by
  unfold sb_main
  rw [if_neg (by simp [hb])]
  have h1 : (run_maven_dependency_tree env.mvnBoot).1 = some env.mvnBoot.stdout := by
    simp [run_maven_dependency_tree, hrc]
  simp only [h1]
  rw [if_neg (by simp [hc])]

theorem sb_main_earlyCloud (env : SbEnv) (args : SbArgs)
    (hb : pyTruthyStr args.boot = true) (hrc : env.mvnBoot.returncode = 0)
    (hc : pyTruthyStr args.cloud = true)
    (hrcC : env.mvnCloud.returncode ≠ 0) :
    sb_main env args = sbEarlyCloudTrace env args env.mvnBoot.stdout := by
  unfold sb_main
  rw [if_neg (by simp [hb])]
  have h1 : (run_maven_dependency_tree env.mvnBoot).1 = some env.mvnBoot.stdout := by
    simp [run_maven_dependency_tree, hrc]
  simp only [h1]
  rw [if_pos hc]
  have h2 : (run_maven_dependency_tree env.mvnCloud).1 = none := by
    simp [run_maven_dependency_tree, hrcC]
  simp only [h2]

theorem sb_main_cloudDone (env : SbEnv) (args : SbArgs)
    (hb : pyTruthyStr args.boot = true) (hrc : env.mvnBoot.returncode = 0)
    (hc : pyTruthyStr args.cloud = true)
    (hrcC : env.mvnCloud.returncode = 0) :
    sb_main env args =
      sbCleanup env args
        (sbCloudFull env args env.mvnBoot.stdout env.mvnCloud.stdout)
        (sbLatest env).1 (sbIoDep env).1 true := by
  unfold sb_main
  rw [if_neg (by simp [hb])]
  have h1 : (run_maven_dependency_tree env.mvnBoot).1 = some env.mvnBoot.stdout := by
    simp [run_maven_dependency_tree, hrc]
  simp only [h1]
  rw [if_pos hc]
  have h2 : (run_maven_dependency_tree env.mvnCloud).1 = some env.mvnCloud.stdout := by
    simp [run_maven_dependency_tree, hrcC]
  simp only [h2]

/-- In every non-help run the HTTP query results land unchanged in the
trace, Maven is invoked in the Boot temp directory, and everything printed
up to the Boot Maven call stays in the output. -/
theorem sb_main_base_fields (env : SbEnv) (args : SbArgs)
    (hb : pyTruthyStr args.boot = true) :
    (sb_main env args).latestResult = (sbLatest env).1 ∧
    (sb_main env args).ioResult = (sbIoDep env).1 ∧
    TEMP_BOOT_DIR ∈ (sb_main env args).mvnCalled ∧
    (∀ x, x ∈ sbBootBlock env args → x ∈ (sb_main env args).printed) := by
  by_cases hrc : env.mvnBoot.returncode = 0
  · by_cases hc : pyTruthyStr args.cloud = true
    · by_cases hrcC : env.mvnCloud.returncode = 0
      · rw [sb_main_cloudDone env args hb hrc hc hrcC]
        unfold sbCleanup
        by_cases hk : pyTruthyStr args.keep = false
        · rw [if_pos hk]
          refine ⟨rfl, rfl, by simp, ?_⟩
          intro x hx
          simp [sbCloudFull, sbBootFull, hx]
        · rw [if_neg hk]
          refine ⟨rfl, rfl, by simp, ?_⟩
          intro x hx
          simp [sbCloudFull, sbBootFull, hx]
      · rw [sb_main_earlyCloud env args hb hrc hc hrcC]
        refine ⟨rfl, rfl, by simp [sbEarlyCloudTrace], ?_⟩
        intro x hx
        simp [sbEarlyCloudTrace, sbBootFull, hx]
    · have hc' : pyTruthyStr args.cloud = false := by simpa using hc
      rw [sb_main_noCloud env args hb hrc hc']
      unfold sbCleanup
      by_cases hk : pyTruthyStr args.keep = false
      · rw [if_pos hk]
        refine ⟨rfl, rfl, by simp, ?_⟩
        intro x hx
        simp [sbBootFull, hx]
      · rw [if_neg hk]
        refine ⟨rfl, rfl, by simp, ?_⟩
        intro x hx
        simp [sbBootFull, hx]
  · rw [sb_main_earlyBoot env args hb hrc]
    refine ⟨rfl, rfl, by simp [sbEarlyBootTrace], ?_⟩
    intro x hx
    exact hx

/-! ## Claim theorems for `spring-boot-dependencies.py` -/

/-- C1 counterexample: the claim describes `extract_dependencies` as keeping
every line with at least 5 colon-separated fields, but the source also
skips any line containing `"---"`.  The line `"a:b:c:d:e ---"` has 5 fields
(so the claim's extraction yields `["a:b:d"]`) yet the source's extraction
skips it and yields `[]`. -/
theorem C1_counterexample :
    extract_dependencies "a:b:c:d:e ---" = [] ∧
    claimExtract "a:b:c:d:e ---" = ["a:b:d"] ∧
    extract_dependencies "a:b:c:d:e ---" ≠ claimExtract "a:b:c:d:e ---" := by
  refine ⟨?_, ?_, ?_⟩
  · decide
  · decide
  · decide

/-- C1 amended: for every dependency-tree text, `extract_dependencies`
returns exactly the coordinates `group:artifact:version` (fields 1, 2 and 4)
of the lines that contain at least 5 colon-separated fields **and do not
contain the substring `"---"`**, deduplicated and sorted ascending. -/
theorem C1_extract_eq_claim_amended (mvnOutput : String) :
    extract_dependencies mvnOutput = claimExtractAmended mvnOutput := by
  unfold extract_dependencies claimExtractAmended collectDeps
  rw [funext lineCoord_eq_amended]

/-- C6: invoked without the Spring Boot version flag, the dependency lister
prints the help text and exits with code 0, with no HTTP request, no Maven
invocation, no directory created or removed. -/
theorem C6_no_boot_flag_prints_help (env : SbEnv) (args : SbArgs)
    (h : args.boot = none) : sb_main env args = sbHelpTrace env :=
  sb_main_help env args (by rw [h]; rfl)

/-- C6 witness: a concrete run with no version flag. -/
theorem C6_witness :
    ({ } : SbArgs).boot = none ∧
    sb_main { latestOracle := Except.ok [], pomOracle := Except.ok [], mvnBoot := { returncode := 0, stdout := "", stderr := "" }, mvnCloud := { returncode := 0, stdout := "", stderr := "" }, preBoot := false, preCloud := false } { } =
      sbHelpTrace { latestOracle := Except.ok [], pomOracle := Except.ok [], mvnBoot := { returncode := 0, stdout := "", stderr := "" }, mvnCloud := { returncode := 0, stdout := "", stderr := "" }, preBoot := false, preCloud := false } :=
  ⟨rfl,
    C6_no_boot_flag_prints_help
      { latestOracle := Except.ok [], pomOracle := Except.ok [], mvnBoot := { returncode := 0, stdout := "", stderr := "" }, mvnCloud := { returncode := 0, stdout := "", stderr := "" }, preBoot := false, preCloud := false }
      { } rfl⟩

/-- C7: whenever Maven exits non-zero during a dependency-tree step, the
lister prints the captured stderr and returns early: for that variant no
coordinate parsing and no version printing happen, and the run ends in the
early return (the cleanup is not reached either). -/
theorem C7_maven_failure_aborts_variant (env : SbEnv) (args : SbArgs)
    (hb : pyTruthyStr args.boot = true) :
    (env.mvnBoot.returncode ≠ 0 →
      ("Erreur Maven:\n " ++ env.mvnBoot.stderr) ∈ (sb_main env args).printed ∧
      (sb_main env args).bootParsed = false ∧
      (sb_main env args).cloudParsed = false ∧
      (sb_main env args).removedDirs = [] ∧
      (sb_main env args).outcome = SbOutcome.earlyReturn) ∧
    (env.mvnBoot.returncode = 0 → pyTruthyStr args.cloud = true →
      env.mvnCloud.returncode ≠ 0 →
      ("Erreur Maven:\n " ++ env.mvnCloud.stderr) ∈ (sb_main env args).printed ∧
      (sb_main env args).cloudParsed = false ∧
      (sb_main env args).removedDirs = [] ∧
      (sb_main env args).outcome = SbOutcome.earlyReturn) := by
  constructor
  · intro hrc
    rw [sb_main_earlyBoot env args hb hrc]
    refine ⟨?_, rfl, rfl, rfl, rfl⟩
    simp [sbEarlyBootTrace, sbBootBlock, run_maven_dependency_tree, hrc]
  · intro hrc hc hrcC
    rw [sb_main_earlyCloud env args hb hrc hc hrcC]
    refine ⟨?_, rfl, rfl, rfl⟩
    simp [sbEarlyCloudTrace, sbCloudBlock, run_maven_dependency_tree, hrcC]

/-- C7 witness: a concrete run where the Boot Maven call fails. -/
theorem C7_witness :
    pyTruthyStr ({ boot := some "3.4.5" } : SbArgs).boot = true ∧
    ({ returncode := 1, stdout := "", stderr := "BUILD FAILURE" } : MvnResult).returncode ≠ 0 ∧
    (("Erreur Maven:\n " ++ "BUILD FAILURE") ∈ (sb_main { latestOracle := Except.ok [{ latestVersion := some "1.27.1" }], pomOracle := Except.ok [], mvnBoot := { returncode := 1, stdout := "", stderr := "BUILD FAILURE" }, mvnCloud := { returncode := 0, stdout := "", stderr := "" }, preBoot := false, preCloud := false } { boot := some "3.4.5" }).printed ∧
     (sb_main { latestOracle := Except.ok [{ latestVersion := some "1.27.1" }], pomOracle := Except.ok [], mvnBoot := { returncode := 1, stdout := "", stderr := "BUILD FAILURE" }, mvnCloud := { returncode := 0, stdout := "", stderr := "" }, preBoot := false, preCloud := false } { boot := some "3.4.5" }).bootParsed = false ∧
     (sb_main { latestOracle := Except.ok [{ latestVersion := some "1.27.1" }], pomOracle := Except.ok [], mvnBoot := { returncode := 1, stdout := "", stderr := "BUILD FAILURE" }, mvnCloud := { returncode := 0, stdout := "", stderr := "" }, preBoot := false, preCloud := false } { boot := some "3.4.5" }).cloudParsed = false ∧
     (sb_main { latestOracle := Except.ok [{ latestVersion := some "1.27.1" }], pomOracle := Except.ok [], mvnBoot := { returncode := 1, stdout := "", stderr := "BUILD FAILURE" }, mvnCloud := { returncode := 0, stdout := "", stderr := "" }, preBoot := false, preCloud := false } { boot := some "3.4.5" }).removedDirs = [] ∧
     (sb_main { latestOracle := Except.ok [{ latestVersion := some "1.27.1" }], pomOracle := Except.ok [], mvnBoot := { returncode := 1, stdout := "", stderr := "BUILD FAILURE" }, mvnCloud := { returncode := 0, stdout := "", stderr := "" }, preBoot := false, preCloud := false } { boot := some "3.4.5" }).outcome = SbOutcome.earlyReturn) :=
  ⟨by decide, by decide,
    (C7_maven_failure_aborts_variant
      { latestOracle := Except.ok [{ latestVersion := some "1.27.1" }], pomOracle := Except.ok [], mvnBoot := { returncode := 1, stdout := "", stderr := "BUILD FAILURE" }, mvnCloud := { returncode := 0, stdout := "", stderr := "" }, preBoot := false, preCloud := false }
      { boot := some "3.4.5" } (by decide)).1 (by decide)⟩

/-- C8: every HTTP failure in the two package-index queries is caught
inside that call: the error message is printed, the call yields `None`
(which lands unchanged in the run's results), and execution continues —
Maven is still invoked in the Boot temp directory afterwards. -/
theorem C8_http_failure_caught_continues (env : SbEnv) (args : SbArgs)
    (e : String) (hb : pyTruthyStr args.boot = true) :
    (env.latestOracle = Except.error e →
      (sb_main env args).latestResult = none ∧
      ("❌ Erreur lors de la récupération de la version : " ++ e) ∈
        (sb_main env args).printed ∧
      TEMP_BOOT_DIR ∈ (sb_main env args).mvnCalled) ∧
    (env.pomOracle = Except.error e →
      (sb_main env args).ioResult = none ∧
      ("Erreur lors de la récupération du POM : " ++ e) ∈
        (sb_main env args).printed ∧
      TEMP_BOOT_DIR ∈ (sb_main env args).mvnCalled) := by
  obtain ⟨hL, hI, hM, hP⟩ := sb_main_base_fields env args hb
  constructor
  · intro ho
    have hpair : sbLatest env =
        (none, ["❌ Erreur lors de la récupération de la version : " ++ e]) := by
      simp [sbLatest, get_latest_version, ho]
    refine ⟨by rw [hL, hpair], ?_, hM⟩
    apply hP
    simp [sbBootBlock, hpair]
  · intro ho
    have hpair : sbIoDep env =
        (none, ["Erreur lors de la récupération du POM : " ++ e]) := by
      simp [sbIoDep, get_dependency_version, ho]
    refine ⟨by rw [hI, hpair], ?_, hM⟩
    apply hP
    simp [sbBootBlock, hpair]

/-- C8 witness: a concrete run where both HTTP queries fail; both messages
are printed, both results are `None`, and Maven still runs. -/
theorem C8_witness :
    ({ latestOracle := Except.error "timeout", pomOracle := Except.error "404", mvnBoot := { returncode := 1, stdout := "", stderr := "x" }, mvnCloud := { returncode := 0, stdout := "", stderr := "" }, preBoot := false, preCloud := false } : SbEnv).latestOracle = Except.error "timeout" ∧
    ({ latestOracle := Except.error "timeout", pomOracle := Except.error "404", mvnBoot := { returncode := 1, stdout := "", stderr := "x" }, mvnCloud := { returncode := 0, stdout := "", stderr := "" }, preBoot := false, preCloud := false } : SbEnv).pomOracle = Except.error "404" ∧
    ((sb_main { latestOracle := Except.error "timeout", pomOracle := Except.error "404", mvnBoot := { returncode := 1, stdout := "", stderr := "x" }, mvnCloud := { returncode := 0, stdout := "", stderr := "" }, preBoot := false, preCloud := false } { boot := some "3.4.5" }).latestResult = none ∧
     ("❌ Erreur lors de la récupération de la version : " ++ "timeout") ∈ (sb_main { latestOracle := Except.error "timeout", pomOracle := Except.error "404", mvnBoot := { returncode := 1, stdout := "", stderr := "x" }, mvnCloud := { returncode := 0, stdout := "", stderr := "" }, preBoot := false, preCloud := false } { boot := some "3.4.5" }).printed ∧
     TEMP_BOOT_DIR ∈ (sb_main { latestOracle := Except.error "timeout", pomOracle := Except.error "404", mvnBoot := { returncode := 1, stdout := "", stderr := "x" }, mvnCloud := { returncode := 0, stdout := "", stderr := "" }, preBoot := false, preCloud := false } { boot := some "3.4.5" }).mvnCalled) ∧
    ((sb_main { latestOracle := Except.error "timeout", pomOracle := Except.error "404", mvnBoot := { returncode := 1, stdout := "", stderr := "x" }, mvnCloud := { returncode := 0, stdout := "", stderr := "" }, preBoot := false, preCloud := false } { boot := some "3.4.5" }).ioResult = none ∧
     ("Erreur lors de la récupération du POM : " ++ "404") ∈ (sb_main { latestOracle := Except.error "timeout", pomOracle := Except.error "404", mvnBoot := { returncode := 1, stdout := "", stderr := "x" }, mvnCloud := { returncode := 0, stdout := "", stderr := "" }, preBoot := false, preCloud := false } { boot := some "3.4.5" }).printed ∧
     TEMP_BOOT_DIR ∈ (sb_main { latestOracle := Except.error "timeout", pomOracle := Except.error "404", mvnBoot := { returncode := 1, stdout := "", stderr := "x" }, mvnCloud := { returncode := 0, stdout := "", stderr := "" }, preBoot := false, preCloud := false } { boot := some "3.4.5" }).mvnCalled) :=
  ⟨rfl, rfl,
    (C8_http_failure_caught_continues
      { latestOracle := Except.error "timeout", pomOracle := Except.error "404", mvnBoot := { returncode := 1, stdout := "", stderr := "x" }, mvnCloud := { returncode := 0, stdout := "", stderr := "" }, preBoot := false, preCloud := false }
      { boot := some "3.4.5" } "timeout" (by decide)).1 rfl,
    (C8_http_failure_caught_continues
      { latestOracle := Except.error "timeout", pomOracle := Except.error "404", mvnBoot := { returncode := 1, stdout := "", stderr := "x" }, mvnCloud := { returncode := 0, stdout := "", stderr := "" }, preBoot := false, preCloud := false }
      { boot := some "3.4.5" } "404" (by decide)).2 rfl⟩

/-- C9 counterexample: the claim "at the end of every run the temporary
directories are removed unless keep is set" fails when the Boot Maven call
exits non-zero: the early return skips the cleanup, so with no keep flag
the created Boot temp directory is still on disk at the end of the run and
nothing was removed. -/
theorem C9_counterexample :
    pyTruthyStr ({ boot := some "3.4.5" } : SbArgs).keep = false ∧
    (sb_main { latestOracle := Except.ok [{ latestVersion := some "1.27.1" }], pomOracle := Except.ok [], mvnBoot := { returncode := 1, stdout := "", stderr := "boom" }, mvnCloud := { returncode := 0, stdout := "", stderr := "" }, preBoot := false, preCloud := false } { boot := some "3.4.5" }).createdDirs = [TEMP_BOOT_DIR] ∧
    (sb_main { latestOracle := Except.ok [{ latestVersion := some "1.27.1" }], pomOracle := Except.ok [], mvnBoot := { returncode := 1, stdout := "", stderr := "boom" }, mvnCloud := { returncode := 0, stdout := "", stderr := "" }, preBoot := false, preCloud := false } { boot := some "3.4.5" }).removedDirs = [] ∧
    (sb_main { latestOracle := Except.ok [{ latestVersion := some "1.27.1" }], pomOracle := Except.ok [], mvnBoot := { returncode := 1, stdout := "", stderr := "boom" }, mvnCloud := { returncode := 0, stdout := "", stderr := "" }, preBoot := false, preCloud := false } { boot := some "3.4.5" }).bootDirFinal = true := by
  refine ⟨rfl, ?_, ?_, ?_⟩
  · decide
  · decide
  · decide

/-- C9 amended: whenever the keep flag is truthy nothing is ever removed;
and in every run that reaches the cleanup (outcome `completed` — the help
exit and the Maven-failure early returns do not) with a falsy keep flag,
both temporary directories are gone afterwards, the Boot one having been
removed explicitly. -/
theorem C9_cleanup_amended (env : SbEnv) (args : SbArgs) :
    (pyTruthyStr args.keep = true → (sb_main env args).removedDirs = []) ∧
    ((sb_main env args).outcome = SbOutcome.completed →
      pyTruthyStr args.keep = false →
      (sb_main env args).bootDirFinal = false ∧
      (sb_main env args).cloudDirFinal = false ∧
      TEMP_BOOT_DIR ∈ (sb_main env args).removedDirs) := by
  by_cases hb : pyTruthyStr args.boot = true
  · by_cases hrc : env.mvnBoot.returncode = 0
    · by_cases hc : pyTruthyStr args.cloud = true
      · by_cases hrcC : env.mvnCloud.returncode = 0
        · rw [sb_main_cloudDone env args hb hrc hc hrcC]
          unfold sbCleanup
          by_cases hk : pyTruthyStr args.keep = false
          · rw [if_pos hk]
            refine ⟨fun hk' => ?_, fun _ _ => ⟨rfl, rfl, by simp⟩⟩
            rw [hk'] at hk
            cases hk
          · rw [if_neg hk]
            exact ⟨fun _ => rfl, fun _ hk' => absurd hk' hk⟩
        · rw [sb_main_earlyCloud env args hb hrc hc hrcC]
          refine ⟨fun _ => rfl, fun ho _ => ?_⟩
          simp [sbEarlyCloudTrace] at ho
      · have hc' : pyTruthyStr args.cloud = false := by simpa using hc
        rw [sb_main_noCloud env args hb hrc hc']
        unfold sbCleanup
        by_cases hk : pyTruthyStr args.keep = false
        · rw [if_pos hk]
          refine ⟨fun hk' => ?_, fun _ _ => ⟨rfl, rfl, by simp⟩⟩
          rw [hk'] at hk
          cases hk
        · rw [if_neg hk]
          exact ⟨fun _ => rfl, fun _ hk' => absurd hk' hk⟩
    · rw [sb_main_earlyBoot env args hb hrc]
      refine ⟨fun _ => rfl, fun ho _ => ?_⟩
      simp [sbEarlyBootTrace] at ho
  · have hb' : pyTruthyStr args.boot = false := by simpa using hb
    rw [sb_main_help env args hb']
    refine ⟨fun _ => rfl, fun ho _ => ?_⟩
    simp [sbHelpTrace] at ho

/-- C9 witness: a completed run without keep removes both directories'
traces from disk; a completed run with keep removes nothing. -/
theorem C9_witness :
    ((sb_main { latestOracle := Except.ok [{ latestVersion := some "1.27.1" }], pomOracle := Except.ok [], mvnBoot := { returncode := 0, stdout := "", stderr := "" }, mvnCloud := { returncode := 0, stdout := "", stderr := "" }, preBoot := false, preCloud := false } { boot := some "3.4.5" }).outcome = SbOutcome.completed ∧
     pyTruthyStr ({ boot := some "3.4.5" } : SbArgs).keep = false ∧
     ((sb_main { latestOracle := Except.ok [{ latestVersion := some "1.27.1" }], pomOracle := Except.ok [], mvnBoot := { returncode := 0, stdout := "", stderr := "" }, mvnCloud := { returncode := 0, stdout := "", stderr := "" }, preBoot := false, preCloud := false } { boot := some "3.4.5" }).bootDirFinal = false ∧
      (sb_main { latestOracle := Except.ok [{ latestVersion := some "1.27.1" }], pomOracle := Except.ok [], mvnBoot := { returncode := 0, stdout := "", stderr := "" }, mvnCloud := { returncode := 0, stdout := "", stderr := "" }, preBoot := false, preCloud := false } { boot := some "3.4.5" }).cloudDirFinal = false ∧
      TEMP_BOOT_DIR ∈ (sb_main { latestOracle := Except.ok [{ latestVersion := some "1.27.1" }], pomOracle := Except.ok [], mvnBoot := { returncode := 0, stdout := "", stderr := "" }, mvnCloud := { returncode := 0, stdout := "", stderr := "" }, preBoot := false, preCloud := false } { boot := some "3.4.5" }).removedDirs)) ∧
    (pyTruthyStr ({ boot := some "3.4.5", keep := some "y" } : SbArgs).keep = true ∧
     (sb_main { latestOracle := Except.ok [{ latestVersion := some "1.27.1" }], pomOracle := Except.ok [], mvnBoot := { returncode := 0, stdout := "", stderr := "" }, mvnCloud := { returncode := 0, stdout := "", stderr := "" }, preBoot := false, preCloud := false } { boot := some "3.4.5", keep := some "y" }).removedDirs = []) :=
  ⟨⟨by decide, rfl,
    (C9_cleanup_amended
      { latestOracle := Except.ok [{ latestVersion := some "1.27.1" }], pomOracle := Except.ok [], mvnBoot := { returncode := 0, stdout := "", stderr := "" }, mvnCloud := { returncode := 0, stdout := "", stderr := "" }, preBoot := false, preCloud := false }
      { boot := some "3.4.5" }).2 (by decide) rfl⟩,
   ⟨by decide,
    (C9_cleanup_amended
      { latestOracle := Except.ok [{ latestVersion := some "1.27.1" }], pomOracle := Except.ok [], mvnBoot := { returncode := 0, stdout := "", stderr := "" }, mvnCloud := { returncode := 0, stdout := "", stderr := "" }, preBoot := false, preCloud := false }
      { boot := some "3.4.5", keep := some "y" }).1 (by decide)⟩⟩
